import Mathlib

/-!
Verification of the client-side lesson runtime embedded in `src/app.py`.

The Python file emits a self-contained HTML/JS lesson player.  The JS
runtime (navigation, widget engines, edit/undo subsystem, narration
coordinator, serializer) is shallowly embedded below: each JS function is
translated to a pure Lean function, with the mutable globals passed as
explicit state.  JS strings are modelled as `String`/`List Char`, JS
objects keyed by integers as association lists `List (Nat × String)`,
and DOM fragments as an inductive `Frag` datatype.
-/

/-! ### Generic JS-string helpers (indexOf / substring / replace) -/

/-- Model of JS `String.indexOf(pat)`: index of the first occurrence of
`pat` in `s`, or `none` when absent (JS returns `-1`). -/
def firstIdx (pat : List Char) : List Char → Option Nat
  | [] => if pat = [] then some 0 else none
  | c :: s => if pat.isPrefixOf (c :: s) then some 0 else (firstIdx pat s).map (· + 1)

/-- Model of JS `String.replace(pat, rep)` with a string pattern:
replaces only the first occurrence. -/
def replaceFirst (pat rep s : List Char) : List Char :=
  match firstIdx pat s with
  | none => s
  | some i => s.take i ++ rep ++ s.drop (i + pat.length)

/-- `pat` occurs somewhere in `s` (used to model JS regex literal tests). -/
def hasSub (pat s : List Char) : Bool := (firstIdx pat s).isSome

/-! ### Navigation controller (`go`, src/app.py line 1114)

JS: `function go(i){prevCur=cur;...;cur=Math.max(0,Math.min(S.length-1,i));
stopAudio();R();if(listenMode)speakSlide()}`.  The new `currentIndex` is a
pure function of the slide count `n = S.length` and the requested index
`i`; `next()`/`previous()` are `go(cur+1)`/`go(cur-1)`. -/
def go (n : Nat) (i : Int) : Int := max 0 (min ((n : Int) - 1) i)

/-! ### Quiz widget engine (`QZ`, src/app.py lines 1199-1203)

JS state: `sl` (selected option, initially `null`).  Handler `_q(i)`:
`if(sl===null){sl=i; if(sl===ci){if(withXP)addXP(20);...celebrate(...)}
else{wrongFlash();...}}` — selections after the first fall through.
The runtime always constructs quizzes with `withXP = true` and the fixed
reward is `20`. -/

structure QuizState where
  sl : Option Nat
deriving DecidableEq, Repr

inductive QuizEv where
  | celebrate
  | wrong
deriving DecidableEq, Repr

/-- One click on option `i` of a quiz with correct index `ci`; returns the
new state, the XP awarded by this click, and the visual events emitted. -/
def qzSelect (ci : Nat) (withXP : Bool) (st : QuizState) (i : Nat) :
    QuizState × Nat × List QuizEv :=
  match st.sl with
  | some _ => (st, 0, [])
  | none =>
    if i = ci then (⟨some i⟩, if withXP then 20 else 0, [QuizEv.celebrate])
    else (⟨some i⟩, 0, [QuizEv.wrong])

/-- A whole sequence of clicks on one quiz instance, accumulating XP and
events. -/
def qzRun (ci : Nat) (withXP : Bool) : QuizState → List Nat → QuizState × Nat × List QuizEv
  | st, [] => (st, 0, [])
  | st, i :: rest =>
    let r1 := qzSelect ci withXP st i
    let r2 := qzRun ci withXP r1.1 rest
    (r2.1, r1.2.1 + r2.2.1, r1.2.2 ++ r2.2.2)

/-! ### Ordering widget engine (`ORDER`, src/app.py lines 1168-1196) -/

structure OrderState where
  current : List Nat
  selIdx : Option Nat
  done : Bool
deriving DecidableEq, Repr

inductive OrdEv where
  | celebrate
  | wrongFlash
deriving DecidableEq, Repr

/-- Handler `_ord(pos)`: no-op when done; first click selects `pos`;
a second click swaps the entries at the selected position and `pos`
and clears the selection (JS: `const tmp=current[selIdx];
current[selIdx]=current[pos];current[pos]=tmp;selIdx=null`). -/
def ordClick (st : OrderState) (pos : Nat) : OrderState :=
  if st.done then st
  else
    match st.selIdx with
    | none => { st with selIdx := some pos }
    | some s =>
      let a := st.current.getD s 0
      let b := st.current.getD pos 0
      { st with current := (st.current.set s b).set pos a, selIdx := none }

/-- JS `current.every((c,i)=>c===i)` starting the index count at `i`. -/
def isIdentityFrom : List Nat → Nat → Bool
  | [], _ => true
  | c :: rest, i => (c == i) && isIdentityFrom rest (i + 1)

/-- Handler `_ordChk()`: if the working permutation is the identity, set
`done`, award the fixed 20 XP and celebrate; otherwise flash an error and
change no state. -/
def ordCheck (st : OrderState) : OrderState × Nat × List OrdEv :=
  if isIdentityFrom st.current 0 then ({ st with done := true }, 20, [OrdEv.celebrate])
  else (st, 0, [OrdEv.wrongFlash])

/-! ### Claim C1 -/

/-- C1: for every lesson with `n ≥ 1` slides and every integer `i`,
`go(i)` leaves `currentIndex` in `[0, n-1]` (clamping); in particular
`previous()` at index `0` (i.e. `go(0-1)`) and `next()` at the last index
(i.e. `go((n-1)+1)`) leave `currentIndex` unchanged. -/
theorem c1_goto_clamps (n : Nat) (i : Int) (h : 1 ≤ n) :
    (0 ≤ go n i ∧ go n i ≤ (n : Int) - 1) ∧
    go n ((0 : Int) - 1) = 0 ∧
    go n (((n : Int) - 1) + 1) = (n : Int) - 1 := by
  have hn : (1 : Int) ≤ (n : Int) := by exact_mod_cast h
  refine ⟨⟨?_, ?_⟩, ?_, ?_⟩ <;> simp [go] <;> omega

/-- Witness for C1 at `n = 3`, `i = 7`. -/
theorem c1_goto_clamps_witness :
    (0 ≤ go 3 7 ∧ go 3 7 ≤ (3 : Int) - 1) ∧
    go 3 ((0 : Int) - 1) = 0 ∧
    go 3 (((3 : Int) - 1) + 1) = (3 : Int) - 1 :=
  c1_goto_clamps 3 7 (by decide)

/-! ### Claim C3 -/

/-- From an answered quiz state, every further click is a no-op: no state
change, no XP, no events. -/
theorem qzRun_answered (ci : Nat) (w : Bool) (j : Nat) (l : List Nat) :
    qzRun ci w ⟨some j⟩ l = (⟨some j⟩, 0, []) := by
  induction l with
  | nil => rfl
  | cons i rest ih => simp [qzRun, qzSelect, ih]

/-- C3: on a quiz slide the first selection moves the state from
unanswered to answered and locks further selection; a correct first
selection awards the fixed 20 XP exactly once together with a celebrate
event, a wrong one emits a wrong event and awards nothing; any later
selection is a no-op, so over any click sequence the total XP (and the
single celebrate event) is decided by the first click alone. -/
theorem c3_quiz_single_award (ci : Nat) :
    (∀ i, i = ci →
      qzSelect ci true ⟨none⟩ i = (⟨some i⟩, 20, [QuizEv.celebrate])) ∧
    (∀ i, i ≠ ci →
      qzSelect ci true ⟨none⟩ i = (⟨some i⟩, 0, [QuizEv.wrong])) ∧
    (∀ j i, qzSelect ci true ⟨some j⟩ i = (⟨some j⟩, 0, [])) ∧
    (∀ i rest, (qzRun ci true ⟨none⟩ (i :: rest)).2.1 = if i = ci then 20 else 0) ∧
    (∀ i rest, (qzRun ci true ⟨none⟩ (i :: rest)).2.2 =
      if i = ci then [QuizEv.celebrate] else [QuizEv.wrong]) := by
  refine ⟨?_, ?_, ?_, ?_, ?_⟩
  · intro i hi; simp [qzSelect, hi]
  · intro i hi; simp [qzSelect, hi]
  · intro j i; rfl
  · intro i rest
    by_cases hi : i = ci <;> simp [qzRun, qzSelect, hi, qzRun_answered]
  · intro i rest
    by_cases hi : i = ci <;> simp [qzRun, qzSelect, hi, qzRun_answered]

/-- Witness for C3 at `ci = 2`: a correct first click awards 20 and
celebrates; a click on an answered instance is a no-op. -/
theorem c3_quiz_single_award_witness :
    qzSelect 2 true ⟨none⟩ 2 = (⟨some 2⟩, 20, [QuizEv.celebrate]) ∧
    qzSelect 2 true ⟨some 2⟩ 1 = (⟨some 2⟩, 0, []) ∧
    (qzRun 2 true ⟨none⟩ [2, 2, 1]).2.1 = 20 :=
  ⟨(c3_quiz_single_award 2).1 2 rfl,
   (c3_quiz_single_award 2).2.2.1 2 1,
   by rw [(c3_quiz_single_award 2).2.2.2.1 2 [2, 1]]; decide⟩

/-! ### Claim C5 -/

/-- `isIdentityFrom l i` holds exactly when `l = [i, i+1, ...]`. -/
theorem isIdentityFrom_iff (l : List Nat) (i : Nat) :
    isIdentityFrom l i = true ↔ l = List.range' i l.length := by
  induction l generalizing i with
  | nil => simp [isIdentityFrom]
  | cons c rest ih =>
    simp only [isIdentityFrom, List.length_cons, List.range'_succ, Bool.and_eq_true,
      beq_iff_eq, List.cons.injEq, ih (i + 1)]

/-- C5: on an ordering slide, clicking a second position swaps the two
positions in the working permutation and clears the selection; `checkOrder`
on a working permutation equal to the identity sets the terminal flag and
awards the fixed 20 XP, while checking any non-identity permutation leaves
the whole state unchanged (only a transient error flash), and repeated
check attempts are allowed (any number of failed checks leave the state
unchanged). -/
theorem c5_ordering_check (st : OrderState) (s pos : Nat) (l : List Nat) (k : Nat) :
    (st.done = false → st.selIdx = some s →
      ordClick st pos =
        { st with
          current := (st.current.set s (st.current.getD pos 0)).set pos (st.current.getD s 0),
          selIdx := none }) ∧
    (isIdentityFrom st.current 0 = true →
      ordCheck st = ({ st with done := true }, 20, [OrdEv.celebrate])) ∧
    (isIdentityFrom st.current 0 = false →
      ordCheck st = (st, 0, [OrdEv.wrongFlash])) ∧
    (isIdentityFrom l 0 = true ↔ l = List.range l.length) ∧
    (isIdentityFrom st.current 0 = false →
      (fun x => (ordCheck x).1)^[k] st = st) := by
  refine ⟨?_, ?_, ?_, ?_, ?_⟩
  · intro hd hs; simp [ordClick, hd, hs]
  · intro hid; simp [ordCheck, hid]
  · intro hid; simp [ordCheck, hid]
  · rw [isIdentityFrom_iff, List.range_eq_range']
  · intro hid
    induction k with
    | zero => rfl
    | succ m ih =>
      rw [Function.iterate_succ_apply]
      simpa [ordCheck, hid] using ih

/-- Witness for C5 on the concrete state `current = [1, 0]`, `selIdx = 0`:
clicking position 1 swaps to the identity; checking before the swap fails
and changes nothing, checking after the swap awards 20. -/
theorem c5_ordering_check_witness :
    ordClick ⟨[1, 0], some 0, false⟩ 1 = ⟨[0, 1], none, false⟩ ∧
    ordCheck ⟨[1, 0], some 0, false⟩ = (⟨[1, 0], some 0, false⟩, 0, [OrdEv.wrongFlash]) ∧
    ordCheck ⟨[0, 1], none, false⟩ = (⟨[0, 1], none, true⟩, 20, [OrdEv.celebrate]) ∧
    (fun x => (ordCheck x).1)^[3] ⟨[1, 0], some 0, false⟩ = ⟨[1, 0], some 0, false⟩ := by
  refine ⟨?_, ?_, ?_, ?_⟩
  · exact (c5_ordering_check ⟨[1, 0], some 0, false⟩ 0 1 [] 0).1 rfl rfl
  · exact (c5_ordering_check ⟨[1, 0], some 0, false⟩ 0 1 [] 0).2.2.1 (by decide)
  · exact (c5_ordering_check ⟨[0, 1], none, false⟩ 0 1 [] 0).2.1 (by decide)
  · exact (c5_ordering_check ⟨[1, 0], some 0, false⟩ 0 1 [] 3).2.2.2.2 (by decide)

/-! ### Media table and block renderer (src/app.py lines 912-925, 953-1040)

`IMAGES` is a JS object mapping integer indices to data URIs; modelled as
an association list.  DOM fragments are modelled by the inductive `Frag`.
The JS block record is loosely typed; `Block` carries the fields the
renderer reads (the `html`/`text`/`content` aliases are collapsed into
`text`, and `alt`/`caption` into `alt`). -/

def lookupN (m : List (Nat × String)) (k : Nat) : Option String :=
  (m.find? fun p => decide (p.1 = k)).map (·.2)

structure Block where
  kind : String
  text : String
  items : List String
  headers : List String
  rows : List (List String)
  good : String
  bad : String
  image_idx : Option Nat
  alt : String
deriving DecidableEq, Repr

/-- JS truthiness of `str`: nonempty. -/
def truthy (s : String) : Bool := !(s == "")

/-- Model of JS `d.startsWith('data:video/')` on the stored URI. -/
def dataIsVideo (d : String) : Bool := "data:video/".data.isPrefixOf d.data

/-- `mediaSrc(idx)`: empty string when the index is undefined or absent or
its value falsy; otherwise the stored URI (for videos the JS returns a
blob URL derived from the same bytes; we return the URI itself). -/
def mediaSrc (images : List (Nat × String)) (idx : Option Nat) : String :=
  match idx with
  | none => ""
  | some k =>
    match lookupN images k with
    | none => ""
    | some d => if truthy d then d else ""

/-- `isVideo(idx)`: index defined, entry present and truthy, URI has the
`data:video/` MIME prefix. -/
def isVideo (images : List (Nat × String)) (idx : Option Nat) : Bool :=
  match idx with
  | none => false
  | some k =>
    match lookupN images k with
    | none => false
    | some d => truthy d && dataIsVideo d

inductive Frag where
  | empty
  | textDiv (s : String)
  | bulletsList (items : List String)
  | iconsList (items : List String)
  | stepsList (items : List String)
  | tipBox (s : String)
  | tableBox (headers : List String) (rows : List (List String))
  | codeBox (s : String)
  | compareBox (good bad : String)
  | imageFrame (src alt : String)
  | videoFrame (src alt : String)
  | headingDiv (s : String)
  | dividerLine
deriving DecidableEq, Repr

/-- `renderBlock(b)` (src/app.py lines 953-1020): pure mapping from one
block to a fragment.  For `image` blocks the media index is resolved
against the media table; an unresolved or falsy entry renders as the
empty fragment (`return ''`), never an error. -/
def renderBlock (images : List (Nat × String)) (b : Block) : Frag :=
  if b.kind = "text" then Frag.textDiv b.text
  else if b.kind = "bullets" then Frag.bulletsList b.items
  else if b.kind = "icons" then Frag.iconsList b.items
  else if b.kind = "steps" then Frag.stepsList b.items
  else if b.kind = "tip" ∨ b.kind = "info" then Frag.tipBox b.text
  else if b.kind = "table" then Frag.tableBox b.headers b.rows
  else if b.kind = "code" then Frag.codeBox b.text
  else if b.kind = "compare" then Frag.compareBox b.good b.bad
  else if b.kind = "image" then
    match b.image_idx with
    | some idx =>
      match lookupN images idx with
      | some d =>
        if truthy d then
          if isVideo images (some idx) then Frag.videoFrame (mediaSrc images (some idx)) b.alt
          else Frag.imageFrame (mediaSrc images (some idx)) b.alt
        else Frag.empty
      | none => Frag.empty
    | none => Frag.empty
  else if b.kind = "heading" then Frag.headingDiv b.text
  else if b.kind = "divider" then Frag.dividerLine
  else if truthy b.text then Frag.textDiv b.text
  else Frag.empty

/-- `buildContentSlide`: renders non-video blocks first, then video
blocks, preserving relative order within each group. -/
def buildContentSlide (images : List (Nat × String)) (blocks : List Block) : List Frag :=
  (blocks.filter (fun b => !(b.kind == "image" && b.image_idx.isSome && isVideo images b.image_idx)) ++
   blocks.filter (fun b => b.kind == "image" && b.image_idx.isSome && isVideo images b.image_idx)).map
    (renderBlock images)

/-! ### Matching widget engine (`MATCH`, src/app.py lines 1129-1165)

`left[li].idx = li` and the shuffled right column is described by a map
`σ` with `σ ri = shuffled[ri].idx`, the original pair index of the right
item displayed at position `ri`.  A shuffle of a list of distinct entries
always gives an injective `σ`.  `matched` is a JS object
`leftIdx -> rightPosition`, modelled as an association list. -/

structure MatchState (n : Nat) where
  selL : Option (Fin n)
  matched : List (Fin n × Fin n)
  wrongPair : Option (Fin n × Fin n)
deriving DecidableEq, Repr

inductive MatchEv where
  | celebrate
  | wrongFlash
deriving DecidableEq, Repr

/-- JS object assignment `matched[k]=v`. -/
def setMatch {n : Nat} (m : List (Fin n × Fin n)) (k v : Fin n) : List (Fin n × Fin n) :=
  if m.any fun p => decide (p.1 = k) then m.map fun p => if p.1 = k then (k, v) else p
  else m ++ [(k, v)]

/-- Handler `_ml(li)`: ignore clicks on already-matched left items,
otherwise select. -/
def mlClick {n : Nat} (st : MatchState n) (li : Fin n) : MatchState n :=
  if st.matched.any fun p => decide (p.1 = li) then st else { st with selL := some li }

/-- Handler `_mr(ri)`: no-op without a selected left item or on a matched
right position; a correct pairing (`left[selL].idx===shuffled[ri].idx`)
records the match and clears selection, awarding the one-time 20 XP when
all pairs are matched; an incorrect pairing sets the transient
`wrongPair` error state and flashes, leaving `matched` untouched. -/
def mrClick {n : Nat} (σ : Fin n → Fin n) (st : MatchState n) (ri : Fin n) :
    MatchState n × Nat × List MatchEv :=
  match st.selL with
  | none => (st, 0, [])
  | some l =>
    if st.matched.any fun p => decide (p.2 = ri) then (st, 0, [])
    else if σ ri = l then
      let m := setMatch st.matched l ri
      if m.length = n then (⟨none, m, none⟩, 20, [MatchEv.celebrate])
      else (⟨none, m, none⟩, 0, [])
    else (⟨none, st.matched, some (l, ri)⟩, 0, [MatchEv.wrongFlash])

/-- The fixed-duration timer that clears the transient error state. -/
def clearWrong {n : Nat} (st : MatchState n) : MatchState n := { st with wrongPair := none }

inductive MClick (n : Nat) where
  | ml (li : Fin n)
  | mr (ri : Fin n)
  | tick

def mStep {n : Nat} (σ : Fin n → Fin n) (st : MatchState n) :
    MClick n → MatchState n × Nat × List MatchEv
  | MClick.ml li => (mlClick st li, 0, [])
  | MClick.mr ri => mrClick σ st ri
  | MClick.tick => (clearWrong st, 0, [])

def mRun {n : Nat} (σ : Fin n → Fin n) :
    MatchState n → List (MClick n) → MatchState n × Nat × List MatchEv
  | st, [] => (st, 0, [])
  | st, c :: rest =>
    let r1 := mStep σ st c
    let r2 := mRun σ r1.1 rest
    (r2.1, r1.2.1 + r2.2.1, r1.2.2 ++ r2.2.2)

def mInit (n : Nat) : MatchState n := ⟨none, [], none⟩

/-- Reachability invariant of the matching widget: matched keys are
distinct and every recorded pair was a correct pairing. -/
def MInv {n : Nat} (σ : Fin n → Fin n) (st : MatchState n) : Prop :=
  (st.matched.map Prod.fst).Nodup ∧ ∀ p ∈ st.matched, σ p.2 = p.1

theorem MInv_of_matched_eq {n : Nat} {σ : Fin n → Fin n} {a b : MatchState n}
    (h : b.matched = a.matched) (hI : MInv σ a) : MInv σ b := by
  unfold MInv
  rw [h]
  exact hI

theorem mlClick_matched {n : Nat} (st : MatchState n) (li : Fin n) :
    (mlClick st li).matched = st.matched := by
  unfold mlClick
  split <;> rfl

theorem nodup_full_mem {n : Nat} (l : List (Fin n)) (h : l.Nodup) (hl : l.length = n)
    (x : Fin n) : x ∈ l := by
  have h1 : l.toFinset.card = n := by rw [List.toFinset_card_of_nodup h, hl]
  have h2 : l.toFinset = Finset.univ := Finset.eq_univ_of_card _ (by simpa using h1)
  have h3 := Finset.mem_univ x
  rw [← h2] at h3
  simpa using h3

theorem MInv_length_le {n : Nat} {σ : Fin n → Fin n} {st : MatchState n}
    (h : MInv σ st) : st.matched.length ≤ n := by
  have h1 := List.Nodup.length_le_card h.1
  simpa using h1

theorem setMatch_fresh {n : Nat} {m : List (Fin n × Fin n)} {k v : Fin n}
    (h : (m.any fun p => decide (p.1 = k)) = false) : setMatch m k v = m ++ [(k, v)] := by
  unfold setMatch
  rw [if_neg]
  simp [h]

theorem mrClick_none {n : Nat} (σ : Fin n → Fin n) (st : MatchState n) (ri : Fin n)
    (h : st.selL = none) : mrClick σ st ri = (st, 0, []) := by
  unfold mrClick
  rw [h]

theorem mrClick_some {n : Nat} (σ : Fin n → Fin n) (st : MatchState n) (ri l : Fin n)
    (h : st.selL = some l) :
    mrClick σ st ri =
      (if st.matched.any fun p => decide (p.2 = ri) then (st, 0, [])
       else if σ ri = l then
         (if (setMatch st.matched l ri).length = n
          then (⟨none, setMatch st.matched l ri, none⟩, 20, [MatchEv.celebrate])
          else (⟨none, setMatch st.matched l ri, none⟩, 0, []))
       else (⟨none, st.matched, some (l, ri)⟩, 0, [MatchEv.wrongFlash])) := by
  unfold mrClick
  rw [h]

/-- One interaction step of the matching widget either leaves `matched`
untouched and awards nothing, or (a correct pairing) grows `matched` by
one and awards the 20 XP exactly when that makes all `n` pairs matched. -/
theorem mStep_analysis {n : Nat} {σ : Fin n → Fin n} (hσ : Function.Injective σ)
    {st : MatchState n} (hI : MInv σ st) (c : MClick n) :
    MInv σ (mStep σ st c).1 ∧
    ((mStep σ st c).1.matched = st.matched ∧ (mStep σ st c).2.1 = 0 ∨
      st.matched.length < n ∧
        (mStep σ st c).1.matched.length = st.matched.length + 1 ∧
        (mStep σ st c).2.1 = if (mStep σ st c).1.matched.length = n then 20 else 0) := by
  cases c with
  | ml li =>
    exact ⟨MInv_of_matched_eq (mlClick_matched st li) hI,
      Or.inl ⟨mlClick_matched st li, rfl⟩⟩
  | tick => exact ⟨MInv_of_matched_eq rfl hI, Or.inl ⟨rfl, rfl⟩⟩
  | mr ri =>
    simp only [mStep]
    cases hsel : st.selL with
    | none =>
      simp only [mrClick_none σ st ri hsel]
      exact ⟨hI, Or.inl (by simp)⟩
    | some l =>
      simp only [mrClick_some σ st ri l hsel]
      by_cases hval : (st.matched.any fun p => decide (p.2 = ri)) = true
      · rw [if_pos hval]
        exact ⟨hI, Or.inl ⟨rfl, rfl⟩⟩
      · rw [if_neg hval]
        by_cases hcor : σ ri = l
        · rw [if_pos hcor]
          have hkey : (st.matched.any fun p => decide (p.1 = l)) = false := by
            rw [Bool.eq_false_iff]
            intro hk
            rw [List.any_eq_true] at hk
            obtain ⟨p, hp, hpl⟩ := hk
            rw [decide_eq_true_eq] at hpl
            have h2 : p.2 = ri := hσ (by rw [hI.2 p hp, hpl, hcor])
            exact hval (by rw [List.any_eq_true]; exact ⟨p, hp, by simp [h2]⟩)
          rw [setMatch_fresh hkey]
          have hknotin : l ∉ st.matched.map Prod.fst := by
            intro hmem
            rw [List.mem_map] at hmem
            obtain ⟨p, hp, hpl⟩ := hmem
            rw [Bool.eq_false_iff] at hkey
            exact hkey (by rw [List.any_eq_true]; exact ⟨p, hp, by simp [hpl]⟩)
          have hnd : ((st.matched ++ [(l, ri)]).map Prod.fst).Nodup := by
            rw [List.map_append, List.nodup_append]
            refine ⟨hI.1, List.nodup_singleton l, ?_⟩
            intro a ha hb
            simp only [List.map_cons, List.map_nil, List.mem_singleton] at hb
            subst hb
            exact hknotin ha
          have hcons : ∀ p ∈ st.matched ++ [(l, ri)], σ p.2 = p.1 := by
            intro p hp
            rcases List.mem_append.1 hp with h | h
            · exact hI.2 p h
            · simp only [List.mem_singleton] at h
              subst h
              exact hcor
          have hlt : st.matched.length < n := by
            have := List.Nodup.length_le_card hnd
            simp only [List.length_map, List.length_append, List.length_singleton,
              Fintype.card_fin] at this
            omega
          split
          · next hfull =>
            exact ⟨⟨hnd, hcons⟩, Or.inr ⟨hlt, by simp, by simp [hfull]⟩⟩
          · next hfull =>
            exact ⟨⟨hnd, hcons⟩, Or.inr ⟨hlt, by simp, by simp [hfull]⟩⟩
        · rw [if_neg hcor]
          exact ⟨MInv_of_matched_eq rfl hI, Or.inl ⟨rfl, rfl⟩⟩

/-- Cumulative XP over any click sequence on a matching instance: the
fixed reward is collected exactly when the run ends with all `n` pairs
matched, independently of wrong attempts. -/
theorem mRun_xp {n : Nat} (σ : Fin n → Fin n) (hσ : Function.Injective σ)
    (clicks : List (MClick n)) (st : MatchState n) (hI : MInv σ st) :
    MInv σ (mRun σ st clicks).1 ∧
    st.matched.length ≤ (mRun σ st clicks).1.matched.length ∧
    (mRun σ st clicks).2.1 =
      if (mRun σ st clicks).1.matched.length = n ∧ st.matched.length ≠ n then 20 else 0 := by
  induction clicks generalizing st with
  | nil =>
    refine ⟨hI, le_refl _, ?_⟩
    simp only [mRun]
    rw [if_neg]
    rintro ⟨h1, h2⟩
    exact h2 h1
  | cons c rest ih =>
    obtain ⟨hI1, hcase⟩ := mStep_analysis hσ hI c
    obtain ⟨hI2, hmono, hxp⟩ := ih (mStep σ st c).1 hI1
    simp only [mRun]
    refine ⟨hI2, ?_, ?_⟩
    · rcases hcase with ⟨hm, _⟩ | ⟨_, hlen, _⟩
      · rw [← hm]; exact hmono
      · omega
    · rcases hcase with ⟨hm, hx⟩ | ⟨hlt, hlen, hx⟩
      · rw [hx, hxp, hm]
        simp
      · by_cases hfull : (mStep σ st c).1.matched.length = n
        · have hfin : (mRun σ (mStep σ st c).1 rest).1.matched.length = n := by
            have := MInv_length_le hI2
            omega
          rw [hx, hxp, if_pos hfull, if_neg (by rintro ⟨_, h2⟩; exact h2 hfull),
            if_pos ⟨hfin, by omega⟩]
        · rw [hx, hxp, if_neg hfull]
          by_cases hfin : (mRun σ (mStep σ st c).1 rest).1.matched.length = n
          · rw [if_pos ⟨hfin, hfull⟩, if_pos ⟨hfin, by omega⟩]
          · rw [if_neg (by rintro ⟨h1, _⟩; exact hfin h1),
              if_neg (by rintro ⟨h1, _⟩; exact hfin h1)]

/-- The matching widget never terminates/awards before all pairs are
matched and `matched` has no duplicate keys from the fresh instance. -/
theorem mInit_inv {n : Nat} (σ : Fin n → Fin n) : MInv σ (mInit n) := by
  constructor
  · simp [mInit]
  · intro p hp
    simp [mInit] at hp

/-- C4: on a matching slide (5 pairs), an incorrect left/right pairing
only sets the transient error state (cleared by a timer) and never
mutates `matched`; a correct pairing records the pair and clears the
selection, awarding the fixed 20 XP exactly when it completes all pairs;
over any click sequence from a fresh instance the accumulated reward is
20 exactly when the terminal state (all 5 pairs matched) was reached,
regardless of how many incorrect attempts occurred. -/
theorem c4_matching_pairs (σ : Fin 5 → Fin 5) (hσ : Function.Injective σ)
    (st : MatchState 5) (l ri : Fin 5) (clicks : List (MClick 5)) :
    (st.selL = some l → (st.matched.any fun p => decide (p.2 = ri)) = false → σ ri ≠ l →
      mrClick σ st ri = (⟨none, st.matched, some (l, ri)⟩, 0, [MatchEv.wrongFlash]) ∧
      clearWrong (mrClick σ st ri).1 = ⟨none, st.matched, none⟩) ∧
    (st.selL = some l → (st.matched.any fun p => decide (p.2 = ri)) = false → σ ri = l →
      (mrClick σ st ri).1 = ⟨none, setMatch st.matched l ri, none⟩ ∧
      (mrClick σ st ri).2.1 = if (setMatch st.matched l ri).length = 5 then 20 else 0) ∧
    ((mRun σ (mInit 5) clicks).2.1 =
      if (mRun σ (mInit 5) clicks).1.matched.length = 5 then 20 else 0) ∧
    (mRun σ (mInit 5) clicks).1.matched.length ≤ 5 := by
  obtain ⟨hIf, _, hxp⟩ := mRun_xp σ hσ clicks (mInit 5) (mInit_inv σ)
  refine ⟨?_, ?_, ?_, ?_⟩
  · intro h1 h2 h3
    rw [mrClick_some σ st ri l h1, if_neg (by simp [h2]), if_neg h3]
    exact ⟨rfl, rfl⟩
  · intro h1 h2 h3
    rw [mrClick_some σ st ri l h1, if_neg (by simp [h2]), if_pos h3]
    split
    · next hfull => exact ⟨rfl, by simp [hfull]⟩
    · next hfull => exact ⟨rfl, by simp [hfull]⟩
  · rw [hxp]
    have h0 : (mInit 5).matched.length ≠ 5 := by simp [mInit]
    by_cases hfin : (mRun σ (mInit 5) clicks).1.matched.length = 5
    · rw [if_pos ⟨hfin, h0⟩, if_pos hfin]
    · rw [if_neg (by rintro ⟨h1, _⟩; exact hfin h1), if_neg hfin]
  · exact MInv_length_le hIf

/-- A concrete shuffle of the right column for the C4 witness. -/
def sigmaSwap : Fin 5 → Fin 5 := fun x => if x = 0 then 1 else if x = 1 then 0 else x

/-- Witness for C4 with the concrete shuffle `sigmaSwap`: an incorrect
pairing flashes and leaves `matched` empty; a correct pairing records the
pair; a two-click run earns no reward while pairs remain. -/
theorem c4_matching_pairs_witness :
    mrClick sigmaSwap ⟨some 0, [], none⟩ 0 =
      (⟨none, [], some (0, 0)⟩, 0, [MatchEv.wrongFlash]) ∧
    (mrClick sigmaSwap ⟨some 1, [], none⟩ 0).1 = ⟨none, setMatch [] 1 0, none⟩ ∧
    (mRun sigmaSwap (mInit 5) [MClick.ml 0, MClick.mr 1]).2.1 =
      if (mRun sigmaSwap (mInit 5) [MClick.ml 0, MClick.mr 1]).1.matched.length = 5
      then 20 else 0 :=
  ⟨((c4_matching_pairs sigmaSwap (by decide) ⟨some 0, [], none⟩ 0 0 []).1 rfl (by decide)
      (by decide)).1,
   ((c4_matching_pairs sigmaSwap (by decide) ⟨some 1, [], none⟩ 1 0 []).2.1 rfl (by decide)
      (by decide)).1,
   (c4_matching_pairs sigmaSwap (by decide) (mInit 5) 0 0
      [MClick.ml 0, MClick.mr 1]).2.2.1⟩

/-! ### Claim C10 -/

/-- A resolvable image block for the C10 scenario. -/
def imgBlockA : Block := ⟨"image", "", [], [], [], "", "", some 0, "first"⟩

/-- An image block whose media index does not resolve (C10 scenario). -/
def imgBlockB : Block := ⟨"image", "", [], [], [], "", "", some 5, "second"⟩

/-- C10: for every image block whose media index does not resolve in the
media table (missing index or absent/falsy entry), `renderBlock` returns
the empty fragment — it is a total function, so rendering never throws;
a resolvable non-video image block renders as an image frame; and a
content slide with one resolvable and one unresolvable image block yields
exactly one image fragment and one empty fragment. -/
theorem c10_unresolved_image_empty (images : List (Nat × String)) (b : Block)
    (idx : Nat) (d : String) :
    (b.kind = "image" → b.image_idx = some idx → lookupN images idx = none →
      renderBlock images b = Frag.empty) ∧
    (b.kind = "image" → b.image_idx = none → renderBlock images b = Frag.empty) ∧
    (b.kind = "image" → b.image_idx = some idx → lookupN images idx = some d →
      truthy d = true → dataIsVideo d = false →
      renderBlock images b = Frag.imageFrame d b.alt) ∧
    buildContentSlide [(0, "data:image/png;base64,AAA")] [imgBlockA, imgBlockB] =
      [Frag.imageFrame "data:image/png;base64,AAA" "first", Frag.empty] := by
  refine ⟨?_, ?_, ?_, by decide⟩
  · intro h1 h2 h3
    simp [renderBlock, h1, h2, h3]
  · intro h1 h2
    simp [renderBlock, h1, h2]
  · intro h1 h2 h3 h4 h5
    simp [renderBlock, isVideo, mediaSrc, h1, h2, h3, h4, h5]

/-- Witness for C10: the unresolvable block of the scenario renders empty
and the resolvable one renders as an image frame. -/
theorem c10_unresolved_image_empty_witness :
    renderBlock [(0, "data:image/png;base64,AAA")] imgBlockB = Frag.empty ∧
    renderBlock [(0, "data:image/png;base64,AAA")] imgBlockA =
      Frag.imageFrame "data:image/png;base64,AAA" "first" :=
  ⟨(c10_unresolved_image_empty [(0, "data:image/png;base64,AAA")] imgBlockB 5
      "").1 rfl rfl (by decide),
   by
    have h := (c10_unresolved_image_empty [(0, "data:image/png;base64,AAA")] imgBlockA 0
      "data:image/png;base64,AAA").2.2.1 rfl rfl (by decide) (by decide) (by decide)
    simpa [imgBlockA] using h⟩

/-! ### Edit / undo subsystem (src/app.py lines 1354-1935)

Mutable globals `slidesData`, `IMAGES`, `S` (display entries), `cur`,
`undoStack`, `audioCache` are collected in `EditorState`.  Slide records
are modelled with the schema fields the runtime reads; a slide body is
its list of content blocks (`d.body.blocks`).

Functions that can throw a TypeError return `EditorState × Bool`: the
state reached when the call returned or threw (mutations made before the
throw persist in the globals), and `true` exactly when the call
completed normally.  Two calls throw: `rebuildAllSlides` always does
(its first statement reassigns the `const S` binding of line 1042), and
`doUndo`'s renderer-rebuild loop does whenever a content-type slide sits
at an index outside the live `S` array. -/

structure SlideRec where
  cat : String
  t : String
  s : String
  narration : String
  type : String
  body : List Block
deriving DecidableEq, Repr

/-- Display fields of one entry of the `S` array (`{t,s,narr,cat}`). -/
structure SDisplay where
  t : String
  s : String
  narr : String
  cat : String
deriving DecidableEq, Repr

/-- An undo snapshot: deep copies of `slidesData`, `IMAGES` and the `S`
display fields (src/app.py lines 1357-1362). -/
structure Snap where
  slidesData : List SlideRec
  images : List (Nat × String)
  sArr : List SDisplay
deriving DecidableEq, Repr

structure EditorState where
  slidesData : List SlideRec
  images : List (Nat × String)
  sArr : List SDisplay
  cur : Nat
  undoStack : List Snap
  audioCache : List (Nat × String)
deriving DecidableEq, Repr

def dfltSlide : SlideRec := ⟨"", "", "", "", "", []⟩

def displayOf (d : SlideRec) : SDisplay := ⟨d.t, d.s, d.narration, d.cat⟩

def snapOf (st : EditorState) : Snap := ⟨st.slidesData, st.images, st.sArr⟩

def UNDO_MAX : Nat := 30

/-- `pushUndo()` (src/app.py lines 1357-1365): push a deep-copy snapshot;
on overflow of the fixed capacity drop the oldest (FIFO, `shift()`). -/
def pushUndo (st : EditorState) : EditorState :=
  let stack := st.undoStack ++ [snapOf st]
  { st with undoStack := if stack.length > UNDO_MAX then stack.drop 1 else stack }

/-- Index-wise overwrite used by `doUndo`: position `i` takes the
snapshot entry when the snapshot has one (`if(snap.xs[i])`), and keeps
the current entry otherwise.  The length of the first list never
changes. -/
def assignIdx {α : Type} : List α → List α → List α
  | cur, [] => cur
  | [], _ => []
  | _ :: cs, x :: xs => x :: assignIdx cs xs

/-- The type test `(d.type||'content')==='content'` used by the
renderer-rebuild loop. -/
def isContentType (d : SlideRec) : Bool := d.type == "content" || d.type == ""

/-- `doUndo()` (src/app.py lines 1366-1384): no-op on empty history; else
pop the newest snapshot, merge its slide records index-wise into the
live `slidesData` array (the array object itself is `const` and its
length is never changed), replace `IMAGES` wholesale, and merge the
display fields.  The renderer-rebuild loop
`slidesData.forEach((d,i)=>{if((d.type||'content')==='content')S[i].r=...})`
(line 1379) then throws a TypeError as soon as a content-type slide sits
at an index outside the live `S` array (`S[i]` is `undefined` there), so
the call aborts before the audio-cache clear at line 1381; only when no
content slide index is outside `S` does the call clear the narration
cache wholesale and finish.  The second component is `true` when the
call completed normally, `false` when it threw; either way the first
component is the global state left behind.  `cur` is not restored. -/
def doUndo (st : EditorState) : EditorState × Bool :=
  match st.undoStack.getLast? with
  | none => (st, true)
  | some snap =>
    let st1 :=
      { st with
        slidesData := assignIdx st.slidesData snap.slidesData
        images := snap.images
        sArr := assignIdx st.sArr snap.sArr
        undoStack := st.undoStack.dropLast }
    if (st1.slidesData.drop st1.sArr.length).any isContentType then (st1, false)
    else ({ st1 with audioCache := [] }, true)

/-- `rebuildAllSlides()` (src/app.py lines 1535-1545): its first
statement `S=slidesData.map(...)` (line 1536) reassigns the `const S`
binding declared at line 1042 and therefore throws a TypeError
immediately — the display array is never rebuilt and `cur` is never
clamped here.  The call changes no state and never completes
(second component `false`). -/
def rebuildAll (st : EditorState) : EditorState × Bool := (st, false)

/-- JS `arr.splice(n, 0, a)`. -/
def insertAt {α : Type} (n : Nat) (a : α) (l : List α) : List α :=
  l.take n ++ a :: l.drop n

/-- JS `arr.splice(n, 1)`. -/
def removeAt {α : Type} (n : Nat) (l : List α) : List α :=
  l.take n ++ l.drop (n + 1)

/-- `moveSlide(dir)` (src/app.py lines 1547-1558): guard the target
index, snapshot, swap the two slide records, follow the moved slide;
the trailing `rebuildAllSlides()` call then throws (the mutations
before it persist). -/
def moveSlide (dir : Int) (st : EditorState) : EditorState × Bool :=
  let target := (st.cur : Int) + dir
  if target < 0 ∨ target ≥ (st.slidesData.length : Int) then (st, true)
  else
    let st1 := pushUndo st
    let tgt := target.toNat
    let a := st1.slidesData.getD st1.cur dfltSlide
    let b := st1.slidesData.getD tgt dfltSlide
    rebuildAll
      { st1 with slidesData := (st1.slidesData.set st1.cur b).set tgt a, cur := tgt }

/-- `duplicateSlide()` (src/app.py lines 1560-1569); ends in the
throwing `rebuildAllSlides()`. -/
def duplicateSlide (st : EditorState) : EditorState × Bool :=
  let st1 := pushUndo st
  let c0 := st1.slidesData.getD st1.cur dfltSlide
  let c1 := { c0 with t := c0.t ++ " (copy)" }
  rebuildAll
    { st1 with
      slidesData := insertAt (st1.cur + 1) c1 st1.slidesData
      cur := st1.cur + 1 }

/-- The fresh slide record created by `addSlideAfter()`. -/
def newSlideRec : SlideRec :=
  ⟨"Content", "New Slide", "", "", "content",
    [⟨"text", "Edit this slide content.", [], [], [], "", "", none, ""⟩]⟩

/-- `addSlideAfter()` (src/app.py lines 1571-1579); ends in the
throwing `rebuildAllSlides()`, so the call aborts with the new slide
already inserted and `cur` already moved. -/
def addSlideAfter (st : EditorState) : EditorState × Bool :=
  let st1 := pushUndo st
  rebuildAll
    { st1 with
      slidesData := insertAt (st1.cur + 1) newSlideRec st1.slidesData
      cur := st1.cur + 1 }

/-- `deleteSlide()` (src/app.py lines 1581-1589): rejected up front when
only one slide remains (the UI also disables the button); then requires
user confirmation; only then snapshots and removes the slide (the trailing
`rebuildAllSlides()` call throws after the splice). -/
def deleteSlide (confirmOk : Bool) (st : EditorState) : EditorState × Bool :=
  if st.slidesData.length ≤ 1 then (st, true)
  else if !confirmOk then (st, true)
  else
    let st1 := pushUndo st
    let sd := removeAt st1.cur st1.slidesData
    let cur := if st1.cur ≥ sd.length then sd.length - 1 else st1.cur
    rebuildAll { st1 with slidesData := sd, cur := cur }

/-! ### Media replace (`editImgChange`, src/app.py lines 1747-1780) -/

/-- JS object assignment `IMAGES[k]=v`. -/
def setAssoc (m : List (Nat × String)) (k : Nat) (v : String) : List (Nat × String) :=
  if m.any fun p => decide (p.1 = k) then m.map fun p => if p.1 = k then (k, v) else p
  else m ++ [(k, v)]

/-- JS `delete obj[k]`. -/
def delAssoc (m : List (Nat × String)) (k : Nat) : List (Nat × String) :=
  m.filter fun p => !decide (p.1 = k)

/-- `imgIdx=Object.keys(IMAGES).length; while(IMAGES[imgIdx])imgIdx++`:
probe upward from the key count for the first free index (the fuel
`imgs.length + 1` always suffices). -/
def probeFree (imgs : List (Nat × String)) : Nat → Nat → Nat
  | 0, k => k
  | fuel + 1, k => if (lookupN imgs k).isSome then probeFree imgs fuel (k + 1) else k

/-- In-place update of the list element at an index (no-op out of
range), modelling JS mutation of `arr[i]`. -/
def modifyAt {α : Type} (f : α → α) : Nat → List α → List α
  | _, [] => []
  | 0, a :: l => f a :: l
  | n + 1, a :: l => a :: modifyAt f n l

def isWs (c : Char) : Bool := c == ' ' || c == '\t' || c == '\n' || c == '\r'

def trimL : List Char → List Char
  | [] => []
  | c :: s => if isWs c then trimL s else c :: s

/-- JS `String.trim()`. -/
def trimStr (s : String) : String := ⟨(trimL (trimL s.data).reverse).reverse⟩

/-- The JS regex test `/video|watch|demo|action|look at/i.test(text)`. -/
def videoCue (s : String) : Bool :=
  let l := s.data.map Char.toLower
  hasSub "video".data l || hasSub "watch".data l || hasSub "demo".data l ||
    hasSub "action".data l || hasSub "look at".data l

def VIDEO_SENTENCE : String := "Now, let\x27s watch the video to see this in action."

/-- JS `(narr.trim()?narr.trim()+' ':'')+'Now, ...'`. -/
def appendCue (narr : String) : String :=
  if trimStr narr = "" then VIDEO_SENTENCE else trimStr narr ++ " " ++ VIDEO_SENTENCE

/-- `editImgChange(input, imgIdx, bi)` (src/app.py lines 1747-1780):
replace (or newly allocate) the media entry, point the edited block at
it, and for a video additionally append the narration cue and drop the
slide's cached audio.  Note: unlike `editImgDelete` and
`editAddImageDone`, no undo snapshot is pushed. -/
def editImgChange (st : EditorState) (imgIdxArg : Option Nat) (bi : Nat)
    (dataUri : String) : EditorState :=
  let imgIdx :=
    match imgIdxArg with
    | some k => k
    | none => probeFree st.images (st.images.length + 1) st.images.length
  let images := setAssoc st.images imgIdx dataUri
  let slides1 := modifyAt
    (fun d =>
      { d with body := modifyAt (fun b => { b with image_idx := some imgIdx }) bi d.body })
    st.cur st.slidesData
  if dataIsVideo dataUri then
    let narr := (slides1.getD st.cur dfltSlide).narration
    if videoCue narr then
      { st with
        images := images
        slidesData := slides1
        audioCache := delAssoc st.audioCache st.cur }
    else
      let newNarr := appendCue narr
      { st with
        images := images
        slidesData := modifyAt (fun d => { d with narration := newNarr }) st.cur slides1
        sArr := modifyAt (fun x => { x with narr := newNarr }) st.cur st.sArr
        audioCache := delAssoc st.audioCache st.cur }
  else
    { st with images := images, slidesData := slides1 }

/-! ### Claims C6, C7, C8 -/

def slideA : SlideRec := ⟨"Lesson", "A", "a-sub", "a-narr", "content", []⟩

def slideB : SlideRec := ⟨"Lesson", "B", "b-sub", "b-narr", "content", []⟩

/-- A two-slide lesson state used to exercise the undo path. -/
def c6State : EditorState :=
  ⟨[slideA, slideB], [(0, "data:image/png;base64,AAA")],
    [displayOf slideA, displayOf slideB], 0, [], [(0, "blob:a")]⟩

/-- C6 (code bug): `addSlideAfter()` itself aborts with a TypeError
inside `rebuildAllSlides` (const-`S` reassignment), leaving the inserted
slide and moved `cur` behind and the `S` array never rebuilt; the
following `doUndo` merges the popped snapshot's slide records index-wise
into the live `slidesData` array and never changes its length, so the
lesson keeps three slides (`[A, B, B]`) instead of the restored two —
and the undo call then aborts in its renderer-rebuild loop (the content
slide at index 2 is outside the two-entry `S` array), before the
audio-cache clear, so the narration cache is not cleared either.  Undo
on an empty history is a no-op that completes normally.  The claimed
exact restoration (and wholesale cache clearing) fails. -/
theorem c6_undo_after_add_keeps_length :
    (doUndo (addSlideAfter c6State).1).1.slidesData.length = 3 ∧
    c6State.slidesData.length = 2 ∧
    (doUndo (addSlideAfter c6State).1).1.slidesData = [slideA, slideB, slideB] ∧
    (addSlideAfter c6State).2 = false ∧
    (doUndo (addSlideAfter c6State).1).2 = false ∧
    (doUndo (addSlideAfter c6State).1).1.audioCache = c6State.audioCache ∧
    c6State.audioCache ≠ [] ∧
    doUndo c6State = (c6State, true) := by decide

theorem removeAt_length {α : Type} (n : Nat) (l : List α) :
    (removeAt n l).length = if n < l.length then l.length - 1 else l.length := by
  simp only [removeAt, List.length_append, List.length_take, List.length_drop]
  split <;> omega

/-- C7: `deleteSlide()` invoked when at most one slide remains is
rejected up front by a silent `return` that completes normally: the
whole state is unchanged (in particular no undo snapshot is pushed and
the lesson is untouched); and deletion never empties a lesson (on the
more-than-one-slide path the splice precedes the throwing
`rebuildAllSlides`, so the remaining-length bound holds of the state the
call leaves behind). -/
theorem c7_delete_last_slide_rejected (st : EditorState) (c : Bool) :
    (st.slidesData.length ≤ 1 → deleteSlide c st = (st, true)) ∧
    (st.slidesData.length ≤ 1 → (deleteSlide c st).1.undoStack = st.undoStack) ∧
    (1 ≤ st.slidesData.length → 1 ≤ (deleteSlide c st).1.slidesData.length) := by
  refine ⟨?_, ?_, ?_⟩
  · intro h
    simp [deleteSlide, h]
  · intro h
    simp [deleteSlide, h]
  · intro h
    unfold deleteSlide
    split
    · exact h
    · split
      · exact h
      · next h1 _ =>
        simp only [rebuildAll, pushUndo, removeAt_length]
        split <;> omega

def c7State : EditorState := ⟨[slideA], [], [displayOf slideA], 0, [], []⟩

/-- Witness for C7 on a one-slide lesson: delete (even when confirmed)
changes nothing and completes normally. -/
theorem c7_delete_last_slide_rejected_witness :
    deleteSlide true c7State = (c7State, true) ∧
    1 ≤ (deleteSlide true c7State).1.slidesData.length :=
  ⟨(c7_delete_last_slide_rejected c7State true).1 (by decide),
   (c7_delete_last_slide_rejected c7State true).2.2 (by decide)⟩

/-- A one-slide lesson with one image, no history, for the C8 check. -/
def c8State : EditorState :=
  ⟨[⟨"Lesson", "T", "", "", "content", [imgBlockA]⟩], [(0, "data:image/png;base64,AAA")],
    [⟨"T", "", "", "Lesson"⟩], 0, [], []⟩

/-- C8 (code bug): replacing a block's media through `editImgChange`
mutates the media table (and the block) without pushing any undo
snapshot, although `pushUndo` would have recorded one snapshot; this
contradicts "an undo snapshot is pushed before every mutating
operation". -/
theorem c8_media_replace_no_snapshot :
    (editImgChange c8State (some 0) 0 "data:image/png;base64,BBB").undoStack = [] ∧
    (editImgChange c8State (some 0) 0 "data:image/png;base64,BBB").images =
      [(0, "data:image/png;base64,BBB")] ∧
    c8State.images = [(0, "data:image/png;base64,AAA")] ∧
    (pushUndo c8State).undoStack.length = 1 := by decide

/-! ### Narration coordinator (src/app.py lines 1237-1325)

`elFetch(text, idx)` caches the fetched audio handle per slide index and
returns `null` when the key is missing or the network call fails; the
network outcome is passed in as the oracle `net`.  `speakSlide()` has one
suspension point (the awaited fetch); the values of `listenMode` and
`cur` observed when the fetch resolves are passed as `listenAfter` /
`curAfter` for the staleness guard `!listenMode||cur!==myCur`.  When the
cache already holds the slide's audio there is no await, so the guard
runs in the same tick and cannot be stale.  On a `null` url the badge
text is set to `'Error'` (`SpeakOutcome.errorBadge`); the source contains
no local/on-device synthesis path at all. -/

inductive SpeakOutcome where
  | notStarted
  | staleDiscard
  | errorBadge
  | played (url : String)
deriving DecidableEq, Repr

/-- `elFetch` (src/app.py lines 1248-1261): cache hit, else `null`
without a key, else fetch and cache on success, `null` on failure. -/
def elFetch (elKey : String) (cache : List (Nat × String)) (idx : Nat)
    (net : Option String) : Option String × List (Nat × String) :=
  match lookupN cache idx with
  | some url => (some url, cache)
  | none =>
    if elKey = "" then (none, cache)
    else
      match net with
      | some url => (some url, setAssoc cache idx url)
      | none => (none, cache)

/-- `speakSlide()` (src/app.py lines 1289-1325), reduced to the fetch /
staleness / badge outcome; returns the outcome and the updated cache. -/
def speakSlide (listenMode : Bool) (elKey : String) (cache : List (Nat × String))
    (cur : Nat) (net : Option String) (listenAfter : Bool) (curAfter : Nat) :
    SpeakOutcome × List (Nat × String) :=
  if listenMode = false ∨ elKey = "" then (SpeakOutcome.notStarted, cache)
  else
    match lookupN cache cur with
    | some url => (SpeakOutcome.played url, cache)
    | none =>
      let r := elFetch elKey cache cur net
      if listenAfter = false ∨ curAfter ≠ cur then (SpeakOutcome.staleDiscard, r.2)
      else
        match r.1 with
        | none => (SpeakOutcome.errorBadge, r.2)
        | some url => (SpeakOutcome.played url, r.2)

/-! ### Claim C9 -/

/-- C9 counterexample: with the remote backend configured and the fetch
failing (`net = none`) on the still-current slide, `speakSlide` surfaces
the `'Error'` badge to the user and attempts nothing else — contradicting
"a local/on-device synthesis fallback is attempted instead of surfacing
an error"; and with the backend unconfigured (`elKey = ""`) narration
simply does not start, again with no fallback. -/
theorem c9_counterexample :
    (speakSlide true "KEY" [] 0 none true 0).1 = SpeakOutcome.errorBadge ∧
    (speakSlide true "" [] 0 none true 0).1 = SpeakOutcome.notStarted := by decide

/-- C9 (amended): narration playback attempts the remote text-to-speech
backend first and caches the fetched audio handle per slide index; when
the backend is unconfigured (or listen mode is off) narration is skipped
silently; when a call fails on the still-current slide no fallback
synthesis exists and a transient `'Error'` badge is shown; a stale result
(navigation away or listen mode off before the fetch resolves) is
discarded silently. -/
theorem c9_no_local_fallback (lm la : Bool) (key : String)
    (cache : List (Nat × String)) (cur curAfter : Nat) (net : Option String)
    (url : String) :
    (key = "" → speakSlide lm key cache cur net la curAfter = (SpeakOutcome.notStarted, cache)) ∧
    (lm = false → speakSlide lm key cache cur net la curAfter = (SpeakOutcome.notStarted, cache)) ∧
    (lm = true → key ≠ "" → lookupN cache cur = some url →
      speakSlide lm key cache cur net la curAfter = (SpeakOutcome.played url, cache)) ∧
    (lm = true → key ≠ "" → lookupN cache cur = none → net = none → la = true →
      curAfter = cur →
      speakSlide lm key cache cur net la curAfter = (SpeakOutcome.errorBadge, cache)) ∧
    (lm = true → key ≠ "" → lookupN cache cur = none → net = some url → la = true →
      curAfter = cur →
      speakSlide lm key cache cur net la curAfter =
        (SpeakOutcome.played url, setAssoc cache cur url)) ∧
    (lm = true → key ≠ "" → lookupN cache cur = none → (la = false ∨ curAfter ≠ cur) →
      (speakSlide lm key cache cur net la curAfter).1 = SpeakOutcome.staleDiscard) := by
  refine ⟨?_, ?_, ?_, ?_, ?_, ?_⟩
  · intro h
    simp [speakSlide, h]
  · intro h
    simp [speakSlide, h]
  · intro h1 h2 h3
    simp [speakSlide, h1, h2, h3]
  · intro h1 h2 h3 h4 h5 h6
    simp [speakSlide, elFetch, h1, h2, h3, h4, h5, h6]
  · intro h1 h2 h3 h4 h5 h6
    simp [speakSlide, elFetch, h1, h2, h3, h4, h5, h6]
  · intro h1 h2 h3 h4
    rcases h4 with h4 | h4 <;> simp [speakSlide, elFetch, h1, h2, h3, h4]

/-- Witness for the amended C9: a failing fetch on the current slide
shows the error badge; a successful fetch plays and caches; a stale
failing fetch is discarded. -/
theorem c9_no_local_fallback_witness :
    speakSlide true "KEY" [] 0 none true 0 = (SpeakOutcome.errorBadge, []) ∧
    speakSlide true "KEY" [] 0 (some "blob:u") true 0 =
      (SpeakOutcome.played "blob:u", setAssoc [] 0 "blob:u") ∧
    (speakSlide true "KEY" [] 0 none true 1).1 = SpeakOutcome.staleDiscard :=
  ⟨(c9_no_local_fallback true true "KEY" [] 0 0 none "").2.2.2.1 rfl (by decide) rfl rfl
      rfl rfl,
   (c9_no_local_fallback true true "KEY" [] 0 0 (some "blob:u") "blob:u").2.2.2.2.1 rfl
      (by decide) rfl rfl rfl rfl,
   (c9_no_local_fallback true true "KEY" [] 0 1 none "").2.2.2.2.2 rfl (by decide) rfl
      (Or.inr (by decide))⟩

/-! ### Serializer (`downloadWithEdits`, src/app.py lines 1391-1417)

The produced artifact is one HTML string.  `downloadWithEdits` locates
the fixed boundary markers with `indexOf`, splices the JSON-serialized
`slidesData` between the slide markers, then the JSON-serialized `IMAGES`
between the image markers, then strips the ` data-edit="1"` marker with
`String.replace` so the distributed copy opens read-only.  A lesson is
represented by its canonical JSON text (`JSON.stringify` output), so
textual equality of the embedded payloads is semantic equality of the
lesson.  `loadSlides`/`loadImages` model how a re-opened document binds
the `slidesData`/`IMAGES` constants: the declaration between the markers
is `const slidesData=<json>;` (src/app.py lines 906-907). -/

def SDATA : List Char := "/*SDATA*/".data

def EDATA : List Char := "/*EDATA*/".data

def SIMGS : List Char := "/*SIMGS*/".data

def EIMGS : List Char := "/*EIMGS*/".data

def CONSTS : List Char := "const slidesData=".data

def CONSTI : List Char := "const IMAGES=".data

def SEMI : List Char := ";".data

def EDITM : List Char := " data-edit=\"1\"".data

theorem SDATA_length : SDATA.length = 9 := rfl

theorem EDATA_length : EDATA.length = 9 := rfl

theorem SIMGS_length : SIMGS.length = 9 := rfl

theorem EIMGS_length : EIMGS.length = 9 := rfl

theorem SEMI_eq : SEMI = [';'] := rfl

/-- The slide-data splice: `html.substring(0,sd1) + '/*SDATA*/const
slidesData=' + JSON.stringify(slidesData) + ';/*EDATA*/' +
html.substring(sd2+9)`, guarded by both `indexOf` results. -/
def spliceSlides (html sj : List Char) : List Char :=
  match firstIdx SDATA html, firstIdx EDATA html with
  | some sd1, some sd2 =>
    html.take sd1 ++ SDATA ++ CONSTS ++ sj ++ SEMI ++ EDATA ++ html.drop (sd2 + 9)
  | _, _ => html

/-- The media-table splice, same shape with the image markers. -/
def spliceImages (html ij : List Char) : List Char :=
  match firstIdx SIMGS html, firstIdx EIMGS html with
  | some im1, some im2 =>
    html.take im1 ++ SIMGS ++ CONSTI ++ ij ++ SEMI ++ EIMGS ++ html.drop (im2 + 9)
  | _, _ => html

/-- `downloadWithEdits()`: splice slides, then images, then strip the
editing-enabled marker. -/
def downloadWithEdits (html sj ij : List Char) : List Char :=
  replaceFirst EDITM [] (spliceImages (spliceSlides html sj) ij)

/-- Reading the slide payload back from a produced document: the text of
the `const slidesData=<json>;` declaration between the slide markers. -/
def loadSlides (html : List Char) : Option (List Char) :=
  match firstIdx SDATA html, firstIdx EDATA html with
  | some i, some j =>
    let seg := (html.take j).drop (i + 9)
    if CONSTS.isPrefixOf seg ∧ seg.getLast? = some ';' then
      some ((seg.drop CONSTS.length).dropLast)
    else none
  | _, _ => none

/-- Reading the media payload back from a produced document. -/
def loadImages (html : List Char) : Option (List Char) :=
  match firstIdx SIMGS html, firstIdx EIMGS html with
  | some i, some j =>
    let seg := (html.take j).drop (i + 9)
    if CONSTI.isPrefixOf seg ∧ seg.getLast? = some ';' then
      some ((seg.drop CONSTI.length).dropLast)
    else none
  | _, _ => none

/-- Loading a produced document yields the embedded lesson (slide payload
and media payload). -/
def loadDoc (html : List Char) : Option (List Char × List Char) :=
  match loadSlides html, loadImages html with
  | some a, some b => some (a, b)
  | _, _ => none

theorem take_prefix_len {α : Type} (a b : List α) {s : List α} (hs : s = a ++ b) {n : Nat}
    (h : n = a.length) : s.take n = a := by
  rw [hs, h]
  simp

theorem drop_prefix_len {α : Type} (a b : List α) {s : List α} (hs : s = a ++ b) {n : Nat}
    (h : n = a.length) : s.drop n = b := by
  rw [hs, h]
  simp

theorem spliceSlides_eq (html sj : List Char) (i j : Nat)
    (h1 : firstIdx SDATA html = some i) (h2 : firstIdx EDATA html = some j) :
    spliceSlides html sj =
      html.take i ++ SDATA ++ CONSTS ++ sj ++ SEMI ++ EDATA ++ html.drop (j + 9) := by
  unfold spliceSlides
  rw [h1, h2]

theorem spliceImages_eq (html ij : List Char) (i j : Nat)
    (h1 : firstIdx SIMGS html = some i) (h2 : firstIdx EIMGS html = some j) :
    spliceImages html ij =
      html.take i ++ SIMGS ++ CONSTI ++ ij ++ SEMI ++ EIMGS ++ html.drop (j + 9) := by
  unfold spliceImages
  rw [h1, h2]

theorem replaceFirst_eq (pat rep s : List Char) (i : Nat) (h : firstIdx pat s = some i) :
    replaceFirst pat rep s = s.take i ++ rep ++ s.drop (i + pat.length) := by
  unfold replaceFirst
  rw [h]

theorem replaceFirst_none (pat rep s : List Char) (h : firstIdx pat s = none) :
    replaceFirst pat rep s = s := by
  unfold replaceFirst
  rw [h]

theorem loadSlides_eq (html : List Char) (i j : Nat)
    (h1 : firstIdx SDATA html = some i) (h2 : firstIdx EDATA html = some j) :
    loadSlides html =
      (if CONSTS.isPrefixOf ((html.take j).drop (i + 9)) ∧
          ((html.take j).drop (i + 9)).getLast? = some ';' then
        some ((((html.take j).drop (i + 9)).drop CONSTS.length).dropLast)
      else none) := by
  unfold loadSlides
  rw [h1, h2]

theorem loadImages_eq (html : List Char) (i j : Nat)
    (h1 : firstIdx SIMGS html = some i) (h2 : firstIdx EIMGS html = some j) :
    loadImages html =
      (if CONSTI.isPrefixOf ((html.take j).drop (i + 9)) ∧
          ((html.take j).drop (i + 9)).getLast? = some ';' then
        some ((((html.take j).drop (i + 9)).drop CONSTI.length).dropLast)
      else none) := by
  unfold loadImages
  rw [h1, h2]

/-- C2: serialization embeds the current slide model and media table as
`const` declarations inside the fixed boundary markers and strips the
editing-enabled marker (the produced document `D` is exactly the template
with the payloads replaced and ` data-edit="1"` removed); loading `D`
recovers the embedded lesson unchanged, and re-serializing the loaded
lesson with no edits reproduces `D` byte for byte — so
`serialize(load(serialize(L))) = serialize(L)`.  The position hypotheses
say that each fixed marker first occurs at its intended place (a valid
lesson payload does not contain the markers). -/
theorem c2_serialize_load_roundtrip
    (u v q1 t2 q2 t3 sj ij T S1 S2 D P1 P2 : List Char)
    (hT : T = u ++ EDITM ++ v ++ SDATA ++ q1 ++ EDATA ++ t2 ++ SIMGS ++ q2 ++ EIMGS ++ t3)
    (hP1 : P1 = CONSTS ++ sj ++ SEMI)
    (hP2 : P2 = CONSTI ++ ij ++ SEMI)
    (hS1 : S1 = u ++ EDITM ++ v ++ SDATA ++ P1 ++ EDATA ++ t2 ++ SIMGS ++ q2 ++ EIMGS ++ t3)
    (hS2 : S2 = u ++ EDITM ++ v ++ SDATA ++ P1 ++ EDATA ++ t2 ++ SIMGS ++ P2 ++ EIMGS ++ t3)
    (hD : D = u ++ v ++ SDATA ++ P1 ++ EDATA ++ t2 ++ SIMGS ++ P2 ++ EIMGS ++ t3)
    (h1 : firstIdx SDATA T = some (u.length + EDITM.length + v.length))
    (h2 : firstIdx EDATA T =
      some (u.length + EDITM.length + v.length + SDATA.length + q1.length))
    (h3 : firstIdx SIMGS S1 =
      some (u.length + EDITM.length + v.length + SDATA.length + P1.length +
        EDATA.length + t2.length))
    (h4 : firstIdx EIMGS S1 =
      some (u.length + EDITM.length + v.length + SDATA.length + P1.length +
        EDATA.length + t2.length + SIMGS.length + q2.length))
    (h5 : firstIdx EDITM S2 = some u.length)
    (h6 : firstIdx SDATA D = some (u.length + v.length))
    (h7 : firstIdx EDATA D = some (u.length + v.length + SDATA.length + P1.length))
    (h8 : firstIdx SIMGS D =
      some (u.length + v.length + SDATA.length + P1.length + EDATA.length + t2.length))
    (h9 : firstIdx EIMGS D =
      some (u.length + v.length + SDATA.length + P1.length + EDATA.length + t2.length +
        SIMGS.length + P2.length))
    (h10 : firstIdx EDITM D = none) :
    downloadWithEdits T sj ij = D ∧
    loadDoc D = some (sj, ij) ∧
    downloadWithEdits D sj ij = D ∧
    firstIdx EDITM (downloadWithEdits T sj ij) = none := by
  -- first serialization: slide splice
  have tT : T.take (u.length + EDITM.length + v.length) = u ++ EDITM ++ v :=
    take_prefix_len (u ++ EDITM ++ v)
      (SDATA ++ q1 ++ EDATA ++ t2 ++ SIMGS ++ q2 ++ EIMGS ++ t3)
      (by rw [hT] <;> simp [List.append_assoc])
      (by simp only [List.length_append] <;> omega)
  have dT : T.drop (u.length + EDITM.length + v.length + SDATA.length + q1.length + 9) =
      t2 ++ SIMGS ++ q2 ++ EIMGS ++ t3 :=
    drop_prefix_len (u ++ EDITM ++ v ++ SDATA ++ q1 ++ EDATA)
      (t2 ++ SIMGS ++ q2 ++ EIMGS ++ t3)
      (by rw [hT] <;> simp [List.append_assoc])
      (by simp only [List.length_append, SDATA_length, EDATA_length] <;> omega)
  have stepA : spliceSlides T sj = S1 := by
    rw [spliceSlides_eq T sj _ _ h1 h2, tT, dT, hS1, hP1]
    simp [List.append_assoc]
  -- first serialization: image splice
  have tS1 : S1.take (u.length + EDITM.length + v.length + SDATA.length + P1.length +
      EDATA.length + t2.length) = u ++ EDITM ++ v ++ SDATA ++ P1 ++ EDATA ++ t2 :=
    take_prefix_len (u ++ EDITM ++ v ++ SDATA ++ P1 ++ EDATA ++ t2)
      (SIMGS ++ q2 ++ EIMGS ++ t3)
      (by rw [hS1] <;> simp [List.append_assoc])
      (by simp only [List.length_append] <;> omega)
  have dS1 : S1.drop (u.length + EDITM.length + v.length + SDATA.length + P1.length +
      EDATA.length + t2.length + SIMGS.length + q2.length + 9) = t3 :=
    drop_prefix_len (u ++ EDITM ++ v ++ SDATA ++ P1 ++ EDATA ++ t2 ++ SIMGS ++ q2 ++ EIMGS)
      t3
      (by rw [hS1] <;> simp [List.append_assoc])
      (by simp only [List.length_append, SIMGS_length, EIMGS_length] <;> omega)
  have stepB : spliceImages S1 ij = S2 := by
    rw [spliceImages_eq S1 ij _ _ h3 h4, tS1, dS1, hS2, hP2]
    simp [List.append_assoc]
  -- first serialization: strip the edit marker
  have tS2 : S2.take u.length = u :=
    take_prefix_len u
      (EDITM ++ v ++ SDATA ++ P1 ++ EDATA ++ t2 ++ SIMGS ++ P2 ++ EIMGS ++ t3)
      (by rw [hS2] <;> simp [List.append_assoc]) rfl
  have dS2 : S2.drop (u.length + EDITM.length) =
      v ++ SDATA ++ P1 ++ EDATA ++ t2 ++ SIMGS ++ P2 ++ EIMGS ++ t3 :=
    drop_prefix_len (u ++ EDITM)
      (v ++ SDATA ++ P1 ++ EDATA ++ t2 ++ SIMGS ++ P2 ++ EIMGS ++ t3)
      (by rw [hS2] <;> simp [List.append_assoc])
      (by simp only [List.length_append])
  have stepC : replaceFirst EDITM [] S2 = D := by
    rw [replaceFirst_eq EDITM [] S2 u.length h5, tS2, dS2, hD]
    simp [List.append_assoc]
  have con1 : downloadWithEdits T sj ij = D := by
    unfold downloadWithEdits
    rw [stepA, stepB, stepC]
  -- load: the slide payload
  have tD7 : D.take (u.length + v.length + SDATA.length + P1.length) =
      u ++ v ++ SDATA ++ P1 :=
    take_prefix_len (u ++ v ++ SDATA ++ P1) (EDATA ++ t2 ++ SIMGS ++ P2 ++ EIMGS ++ t3)
      (by rw [hD] <;> simp [List.append_assoc])
      (by simp only [List.length_append] <;> omega)
  have hseg1 : ((D.take (u.length + v.length + SDATA.length + P1.length)).drop
      (u.length + v.length + 9)) = P1 := by
    rw [tD7]
    exact drop_prefix_len (u ++ v ++ SDATA) P1 (by simp [List.append_assoc])
      (by simp only [List.length_append, SDATA_length] <;> omega)
  have hpre1 : CONSTS.isPrefixOf P1 = true := by
    rw [List.isPrefixOf_iff_prefix, hP1]
    exact (List.prefix_append CONSTS sj).trans (List.prefix_append (CONSTS ++ sj) SEMI)
  have hlast1 : P1.getLast? = some ';' := by
    rw [hP1, SEMI_eq]
    exact List.getLast?_concat _
  have hval1 : (P1.drop CONSTS.length).dropLast = sj := by
    rw [drop_prefix_len CONSTS (sj ++ SEMI) (by rw [hP1] <;> simp [List.append_assoc]) rfl, SEMI_eq]
    exact List.dropLast_concat
  have stepD : loadSlides D = some sj := by
    rw [loadSlides_eq D _ _ h6 h7, hseg1, if_pos ⟨hpre1, hlast1⟩, hval1]
  -- load: the media payload
  have tD9 : D.take (u.length + v.length + SDATA.length + P1.length + EDATA.length +
      t2.length + SIMGS.length + P2.length) =
      u ++ v ++ SDATA ++ P1 ++ EDATA ++ t2 ++ SIMGS ++ P2 :=
    take_prefix_len (u ++ v ++ SDATA ++ P1 ++ EDATA ++ t2 ++ SIMGS ++ P2)
      (EIMGS ++ t3)
      (by rw [hD] <;> simp [List.append_assoc])
      (by simp only [List.length_append] <;> omega)
  have hseg2 : ((D.take (u.length + v.length + SDATA.length + P1.length + EDATA.length +
      t2.length + SIMGS.length + P2.length)).drop
      (u.length + v.length + SDATA.length + P1.length + EDATA.length + t2.length + 9)) =
      P2 := by
    rw [tD9]
    exact drop_prefix_len (u ++ v ++ SDATA ++ P1 ++ EDATA ++ t2 ++ SIMGS) P2
      (by simp [List.append_assoc])
      (by simp only [List.length_append, SIMGS_length] <;> omega)
  have hpre2 : CONSTI.isPrefixOf P2 = true := by
    rw [List.isPrefixOf_iff_prefix, hP2]
    exact (List.prefix_append CONSTI ij).trans (List.prefix_append (CONSTI ++ ij) SEMI)
  have hlast2 : P2.getLast? = some ';' := by
    rw [hP2, SEMI_eq]
    exact List.getLast?_concat _
  have hval2 : (P2.drop CONSTI.length).dropLast = ij := by
    rw [drop_prefix_len CONSTI (ij ++ SEMI) (by rw [hP2] <;> simp [List.append_assoc]) rfl, SEMI_eq]
    exact List.dropLast_concat
  have stepE : loadImages D = some ij := by
    rw [loadImages_eq D _ _ h8 h9, hseg2, if_pos ⟨hpre2, hlast2⟩, hval2]
  have con2 : loadDoc D = some (sj, ij) := by
    unfold loadDoc
    rw [stepD, stepE]
  -- re-serialization is the identity on the produced document
  have tD6 : D.take (u.length + v.length) = u ++ v :=
    take_prefix_len (u ++ v) (SDATA ++ P1 ++ EDATA ++ t2 ++ SIMGS ++ P2 ++ EIMGS ++ t3)
      (by rw [hD] <;> simp [List.append_assoc])
      (by simp only [List.length_append])
  have dD7 : D.drop (u.length + v.length + SDATA.length + P1.length + 9) =
      t2 ++ SIMGS ++ P2 ++ EIMGS ++ t3 :=
    drop_prefix_len (u ++ v ++ SDATA ++ P1 ++ EDATA) (t2 ++ SIMGS ++ P2 ++ EIMGS ++ t3)
      (by rw [hD] <;> simp [List.append_assoc])
      (by simp only [List.length_append, EDATA_length] <;> omega)
  have stepF : spliceSlides D sj = D := by
    rw [spliceSlides_eq D sj _ _ h6 h7, tD6, dD7, hD, hP1]
    simp [List.append_assoc]
  have tD8 : D.take (u.length + v.length + SDATA.length + P1.length + EDATA.length +
      t2.length) = u ++ v ++ SDATA ++ P1 ++ EDATA ++ t2 :=
    take_prefix_len (u ++ v ++ SDATA ++ P1 ++ EDATA ++ t2)
      (SIMGS ++ P2 ++ EIMGS ++ t3)
      (by rw [hD] <;> simp [List.append_assoc])
      (by simp only [List.length_append] <;> omega)
  have dD9 : D.drop (u.length + v.length + SDATA.length + P1.length + EDATA.length +
      t2.length + SIMGS.length + P2.length + 9) = t3 :=
    drop_prefix_len (u ++ v ++ SDATA ++ P1 ++ EDATA ++ t2 ++ SIMGS ++ P2 ++ EIMGS) t3
      (by rw [hD] <;> simp [List.append_assoc])
      (by simp only [List.length_append, SIMGS_length, EIMGS_length] <;> omega)
  have stepG : spliceImages D ij = D := by
    rw [spliceImages_eq D ij _ _ h8 h9, tD8, dD9, hD, hP2]
    simp [List.append_assoc]
  have con3 : downloadWithEdits D sj ij = D := by
    unfold downloadWithEdits
    rw [stepF, stepG, replaceFirst_none EDITM [] D h10]
  refine ⟨con1, con2, con3, ?_⟩
  rw [con1]
  exact h10

/-- Concrete editable template for the C2 witness. -/
def c2T : List Char :=
  "<body".data ++ EDITM ++ ">".data ++ SDATA ++ "A".data ++ EDATA ++ ";B".data ++
    SIMGS ++ "C".data ++ EIMGS ++ ";D".data

def c2P1 : List Char := CONSTS ++ "[1]".data ++ SEMI

def c2P2 : List Char := CONSTI ++ "[2]".data ++ SEMI

def c2S1 : List Char :=
  "<body".data ++ EDITM ++ ">".data ++ SDATA ++ c2P1 ++ EDATA ++ ";B".data ++
    SIMGS ++ "C".data ++ EIMGS ++ ";D".data

def c2S2 : List Char :=
  "<body".data ++ EDITM ++ ">".data ++ SDATA ++ c2P1 ++ EDATA ++ ";B".data ++
    SIMGS ++ c2P2 ++ EIMGS ++ ";D".data

/-- Concrete produced document for the C2 witness. -/
def c2D : List Char :=
  "<body".data ++ ">".data ++ SDATA ++ c2P1 ++ EDATA ++ ";B".data ++
    SIMGS ++ c2P2 ++ EIMGS ++ ";D".data

/-- Witness for C2 on a concrete template and lesson. -/
theorem c2_serialize_load_roundtrip_witness :
    downloadWithEdits c2T "[1]".data "[2]".data = c2D ∧
    loadDoc c2D = some ("[1]".data, "[2]".data) ∧
    downloadWithEdits c2D "[1]".data "[2]".data = c2D ∧
    firstIdx EDITM (downloadWithEdits c2T "[1]".data "[2]".data) = none :=
  c2_serialize_load_roundtrip "<body".data ">".data "A".data ";B".data "C".data ";D".data
    "[1]".data "[2]".data c2T c2S1 c2S2 c2D c2P1 c2P2
    rfl rfl rfl rfl rfl rfl
    (by decide) (by decide) (by decide) (by decide) (by decide)
    (by decide) (by decide) (by decide) (by decide) (by decide)
